import Mathlib

/-!
# PMCC analysis tool — verification of the core engine

Shallow embedding, over exact rationals, of the algorithmic core of
`src/app.py` (a Streamlit PMCC analysis tool):

* the premium resolver `get_price` / `get_bid` (app.py lines 336–343),
* the default strike selector `def_l` / `def_s` (app.py lines 304–311,
  Python `min(seq, key=lambda x: abs(x - target))`),
* the Black–Scholes Greeks calculator `calculate_greeks` (app.py lines 40–53),
* the payoff engine: `net_debit`, `total_cost`, `breakeven`, the scenario
  table and the payoff curve (app.py lines 380–445),
* the diagnostics / coach comment generator `generate_coach_comments`
  (app.py lines 55–91).

Floating point values carried by quote rows are modelled by `FVal`
(a rational or NaN); transcendental library functions (`np.log`,
`np.sqrt`, `np.exp`, `scipy.stats.norm.cdf/pdf`) are modelled as an
abstract record of rational functions, since the claims under scrutiny
concern the formulas built from them, not their numeric values.
-/

namespace PMCC

/-- A float field value as it appears in a pandas option-chain row:
either NaN or an actual (here: rational) number. -/
inductive FVal where
  | nan : FVal
  | val : ℚ → FVal
deriving DecidableEq

/-- Python `pd.isna` on an `FVal`. -/
def FVal.isna : FVal → Bool
  | .nan => true
  | .val _ => false

/-- The Python comparison `val <= 0` on a float: `False` for NaN
(NaN comparisons are false), otherwise the rational comparison. -/
def FVal.le0 : FVal → Bool
  | .nan => false
  | .val q => q ≤ 0

/-- One row of the calls option chain, keeping the three fields the
premium resolver reads. Each field may be missing from the row. -/
structure QuoteRow where
  ask : Option FVal
  bid : Option FVal
  lastPrice : Option FVal

/-- Reading `row.get(field, 0)`: the field's value, or float `0` when
the field is absent from the row. -/
def getField (f : Option FVal) : FVal := f.getD (.val 0)

/-- app.py lines 336–339:
```
def get_price(row):
    val = row.get('ask', 0) if 'ask' in row else 0
    if pd.isna(val) or val <= 0: return row.get('lastPrice', 0)
    return val
``` -/
def get_price (row : QuoteRow) : FVal :=
  let v := getField row.ask
  if v.isna || v.le0 then getField row.lastPrice else v

/-- app.py lines 340–343: identical to `get_price` but reading `bid`. -/
def get_bid (row : QuoteRow) : FVal :=
  let v := getField row.bid
  if v.isna || v.le0 then getField row.lastPrice else v

/-- The premium-resolution rule exactly as the spec's claim words it:
primary when present, non-NaN and > 0; else `lastPrice` when present,
non-NaN and > 0; else 0. Stated from the spec, to be compared with the
code's `get_price`/`get_bid`. -/
def resolvePremiumClaimed (primary lastP : Option FVal) : FVal :=
  match primary with
  | some (.val q) =>
      if 0 < q then .val q
      else match lastP with
        | some (.val l) => if 0 < l then .val l else .val 0
        | _ => .val 0
  | _ =>
      match lastP with
      | some (.val l) => if 0 < l then .val l else .val 0
      | _ => .val 0

/-- The amended premium-resolution rule: primary when present, non-NaN
and > 0; otherwise `lastPrice` returned unchanged whenever the field is
present (even when NaN or ≤ 0), and 0 only when `lastPrice` is absent. -/
def resolvePremiumAmended (primary lastP : Option FVal) : FVal :=
  match primary with
  | some (.val q) => if 0 < q then .val q else getField lastP
  | _ => getField lastP

/-! ## Strike selector -/

/-- One step of Python's `min(seq, key=lambda x: abs(x - t))`: the
accumulator is replaced only when the new key is strictly smaller, so
the first-seen minimiser is kept. -/
def minStep (t b a : ℚ) : ℚ := if |a - t| < |b - t| then a else b

/-- Python `min(strikes, key=lambda x: abs(x - target))` — `none`
models the `ValueError` Python raises on an empty sequence (the spec's
`EmptyStrikeSet`). -/
def selectStrike (strikes : List ℚ) (target : ℚ) : Option ℚ :=
  match strikes with
  | [] => none
  | x :: xs => some (xs.foldl (minStep target) x)

/-- app.py line 309: `def_l = min(strikes_l, key=lambda x:abs(x-(data['price']*0.60)))`. -/
def def_l (strikes : List ℚ) (price : ℚ) : Option ℚ :=
  selectStrike strikes (price * 0.60)

/-- app.py line 310: `def_s = min(strikes_s, key=lambda x:abs(x-(data['price']*1.15)))`. -/
def def_s (strikes : List ℚ) (price : ℚ) : Option ℚ :=
  selectStrike strikes (price * 1.15)

/-! ## Greeks calculator -/

/-- The numeric library collaborators used by `calculate_greeks`:
`np.log`, `np.sqrt`, `np.exp`, `scipy.stats.norm.cdf`, `norm.pdf`.
Abstract here: the claims concern the formulas assembled from them. -/
structure MathFns where
  log : ℚ → ℚ
  sqrt : ℚ → ℚ
  exp : ℚ → ℚ
  cdf : ℚ → ℚ
  pdf : ℚ → ℚ

/-- app.py lines 40–53:
```
def calculate_greeks(S, K, T, r, sigma, option_type='call'):
    try:
        if T <= 0 or sigma <= 0: return None, None
        d1 = (np.log(S / K) + (r + 0.5 * sigma ** 2) * T) / (sigma * np.sqrt(T))
        d2 = d1 - sigma * np.sqrt(T)
        if option_type == 'call':
            delta = norm.cdf(d1)
            theta_annual = -(S * norm.pdf(d1) * sigma) / (2 * np.sqrt(T)) \
                - r * K * np.exp(-r * T) * norm.cdf(d2)
            theta = theta_annual / 365.0
        else:
            delta = -norm.cdf(-d1); theta = 0
        return delta, theta
    except: return None, None
```
`(none, none)` is the `None, None` "undefined" result. -/
def calculate_greeks (M : MathFns) (S K T r sigma : ℚ)
    (option_type : String) : Option ℚ × Option ℚ :=
  if T ≤ 0 ∨ sigma ≤ 0 then (none, none)
  else
    let d1 := (M.log (S / K) + (r + 0.5 * sigma ^ 2) * T) / (sigma * M.sqrt T)
    let d2 := d1 - sigma * M.sqrt T
    if option_type = "call" then
      let delta := M.cdf d1
      let theta_annual := -(S * M.pdf d1 * sigma) / (2 * M.sqrt T)
        - r * K * M.exp (-r * T) * M.cdf d2
      (some delta, some (theta_annual / 365))
    else
      (some (-(M.cdf (-d1))), some 0)

/-- The spec's formula `d1 = (ln(S/K) + (r + 0.5·σ²)·T) / (σ·√T)`. -/
def d1_spec (M : MathFns) (S K T r sigma : ℚ) : ℚ :=
  (M.log (S / K) + (r + 0.5 * sigma ^ 2) * T) / (sigma * M.sqrt T)

/-- The spec's formula `d2 = d1 - σ·√T`. -/
def d2_spec (M : MathFns) (S K T r sigma : ℚ) : ℚ :=
  d1_spec M S K T r sigma - sigma * M.sqrt T

/-- The spec's formula `delta = Φ(d1)`. -/
def delta_spec (M : MathFns) (S K T r sigma : ℚ) : ℚ :=
  M.cdf (d1_spec M S K T r sigma)

/-- The spec's formula
`theta = [ -(S·φ(d1)·σ)/(2·√T) - r·K·e^(-rT)·Φ(d2) ] / 365`. -/
def theta_spec (M : MathFns) (S K T r sigma : ℚ) : ℚ :=
  (-(S * M.pdf (d1_spec M S K T r sigma) * sigma) / (2 * M.sqrt T)
    - r * K * M.exp (-r * T) * M.cdf (d2_spec M S K T r sigma)) / 365

/-! ## Payoff engine -/

/-- app.py line 381: `net_debit = prem_l - prem_s`. -/
def net_debit (prem_l prem_s : ℚ) : ℚ := prem_l - prem_s

/-- app.py line 382: `total_cost = net_debit * 100`. -/
def total_cost (prem_l prem_s : ℚ) : ℚ := net_debit prem_l prem_s * 100

/-- app.py line 383: `breakeven = long_strike + net_debit`. -/
def breakeven (long_strike prem_l prem_s : ℚ) : ℚ :=
  long_strike + net_debit prem_l prem_s

/-- app.py lines 411–415 (scenario loop):
```
val_l = max(0, p - long_strike)
val_s = max(0, p - short_strike)
cost = -net_debit
total = val_l - val_s + cost
``` -/
def scenario_total (long_strike short_strike nd p : ℚ) : ℚ :=
  max 0 (p - long_strike) - max 0 (p - short_strike) + (-nd)

/-- app.py lines 417–419 (scenario ROI policy):
`roi = (total / total_cost) * 100 if total_cost > 0 else 0`. -/
def scenario_roi (tc total : ℚ) : ℚ :=
  if 0 < tc then total / tc * 100 else 0

/-- app.py lines 437–440 (payoff curve, evaluated pointwise):
```
val_l_arr = np.maximum(0, prices - long_strike)
val_s_arr = np.maximum(0, prices - short_strike)
profit = (val_l_arr - val_s_arr) - net_debit
``` -/
def curve_profit (long_strike short_strike nd p : ℚ) : ℚ :=
  (max 0 (p - long_strike) - max 0 (p - short_strike)) - nd

/-! ## Diagnostics / coach comments -/

/-- The leading status symbol of a coach comment: ✅, ⚠️, ❌ or ⚪. -/
inductive Icon where
  | good : Icon
  | caution : Icon
  | bad : Icon
  | info : Icon
deriving DecidableEq

/-- Which long-delta comment `generate_coach_comments` emits
(app.py lines 60–68). -/
inductive LongDeltaMsg where
  | deep : LongDeltaMsg
  | solid : LongDeltaMsg
  | shallow : LongDeltaMsg
  | unfit : LongDeltaMsg
deriving DecidableEq

/-- Which long-days comment `generate_coach_comments` emits
(app.py lines 69–74). -/
inductive LongDaysMsg where
  | over365 : LongDaysMsg
  | over180 : LongDaysMsg
  | daysShort : LongDaysMsg
deriving DecidableEq

/-- Which short-delta comment `generate_coach_comments` emits
(app.py lines 77–84). -/
inductive ShortDeltaMsg where
  | itm : ShortDeltaMsg
  | atm : ShortDeltaMsg
  | ideal : ShortDeltaMsg
  | farOtm : ShortDeltaMsg
deriving DecidableEq

/-- Long-delta branch (app.py lines 60–68): `>= 0.90`, `>= 0.80`,
`>= 0.70`, else. -/
def longDeltaMsg (delta_l : ℚ) : LongDeltaMsg :=
  if 0.90 ≤ delta_l then .deep
  else if 0.80 ≤ delta_l then .solid
  else if 0.70 ≤ delta_l then .shallow
  else .unfit

/-- Long-days branch (app.py lines 69–74): `> 365` ("1年以上"),
`> 180` ("半年以上"), else ("期間が短めです"). -/
def longDaysMsg (days_l : ℤ) : LongDaysMsg :=
  if 365 < days_l then .over365
  else if 180 < days_l then .over180
  else .daysShort

/-- Short-delta branch (app.py lines 77–84): `> 0.60`, `> 0.50`,
`0.20 <= delta_s <= 0.45`, else. -/
def shortDeltaMsg (delta_s : ℚ) : ShortDeltaMsg :=
  if 0.60 < delta_s then .itm
  else if 0.50 < delta_s then .atm
  else if 0.20 ≤ delta_s ∧ delta_s ≤ 0.45 then .ideal
  else .farOtm

/-- The status symbol opening each long-delta comment string:
✅ / ✅ / ⚠️ / ❌. -/
def longDeltaIcon : LongDeltaMsg → Icon
  | .deep => .good
  | .solid => .good
  | .shallow => .caution
  | .unfit => .bad

/-- The status symbol opening each long-days comment string:
✅ / ✅ / ⚠️ — the long-days comment is never ❌. -/
def longDaysIcon : LongDaysMsg → Icon
  | .over365 => .good
  | .over180 => .good
  | .daysShort => .caution

/-- The status symbol opening each short-delta comment string:
❌ / ⚠️ / ✅ / ⚪. -/
def shortDeltaIcon : ShortDeltaMsg → Icon
  | .itm => .bad
  | .atm => .caution
  | .ideal => .good
  | .farOtm => .info

/-- The spec's three diagnostics tiers, `Fail < Warn < Pass`. -/
inductive Tier where
  | tFail : Tier
  | tWarn : Tier
  | tPass : Tier
deriving DecidableEq

/-- Icons read as tiers: ✅ = Pass, ⚠️ = Warn, ❌ = Fail. ⚪ (info,
used only by the far-OTM short-delta comment) carries no verdict and is
mapped to Warn; no days message uses it. -/
def tierOfIcon : Icon → Tier
  | .good => .tPass
  | .caution => .tWarn
  | .bad => .tFail
  | .info => .tWarn

/-- The time-to-expiry tier the code actually assigns to the long leg:
the tier of the icon of its long-days comment. -/
def longDaysTier (days_l : ℤ) : Tier := tierOfIcon (longDaysIcon (longDaysMsg days_l))

/-- The time-to-expiry tier exactly as the spec's claim words it:
`days < 180` Fail, `180 ≤ days ≤ 364` Warn, `days ≥ 365` Pass. Stated
from the spec, to be compared with `longDaysTier`. -/
def timeTierClaimed (days_l : ℤ) : Tier :=
  if days_l < 180 then .tFail
  else if days_l ≤ 364 then .tWarn
  else .tPass

/-- In `comments = ...` at app.py line 57, the score field's initial
value is the string `"B"`. -/
def initial_score : String := "B"

/-- The return value of `generate_coach_comments`: the `long` list
always holds exactly the delta comment then the days comment, the
`short` list exactly the short-delta comment, plus the score string. -/
structure CoachComments where
  longDelta : LongDeltaMsg
  longDays : LongDaysMsg
  shortDelta : ShortDeltaMsg
  score : String

/-- app.py lines 55–91: `generate_coach_comments(delta_l, days_l,
delta_s, days_s)`. The score starts at `"B"` (`initial_score`) and the
final classification (lines 86–89) is
```
if delta_l >= 0.80 and (0.20 <= delta_s <= 0.50): comments["score"] = "S"
elif delta_l >= 0.75: comments["score"] = "A"
else: comments["score"] = "C"
```
`days_s` is accepted but unused, as in the source. -/
def generate_coach_comments (delta_l : ℚ) (days_l : ℤ) (delta_s : ℚ)
    (_days_s : ℤ) : CoachComments :=
  let score0 := initial_score
  let score :=
    if 0.80 ≤ delta_l ∧ (0.20 ≤ delta_s ∧ delta_s ≤ 0.50) then "S"
    else if 0.75 ≤ delta_l then "A"
    else "C"
  { longDelta := longDeltaMsg delta_l
    longDays := longDaysMsg days_l
    shortDelta := shortDeltaMsg delta_s
    score := let _ := score0; score }

/-! ## Theorems -/

/-- C2: for every pair of resolved legs, `net_debit = longPremium -
shortPremium` (negative values allowed, nothing clamps it),
`total_cost = net_debit * 100` and `breakeven = longStrike + net_debit`,
exactly. -/
theorem payoff_engine_identities (long_strike prem_l prem_s : ℚ) :
    net_debit prem_l prem_s = prem_l - prem_s
    ∧ total_cost prem_l prem_s = (prem_l - prem_s) * 100
    ∧ breakeven long_strike prem_l prem_s = long_strike + (prem_l - prem_s) :=
  ⟨rfl, rfl, rfl⟩

/-- C3: with `longStrike ≤ shortStrike`, both the scenario-table total
and the payoff-curve profit equal
`max 0 (p - longStrike) - max 0 (p - shortStrike) - netDebit`
per share; this is `-netDebit` for `p ≤ longStrike` and
`(shortStrike - longStrike) - netDebit` for `p ≥ shortStrike`. -/
theorem profit_piecewise (long_strike short_strike nd p : ℚ)
    (h : long_strike ≤ short_strike) :
    scenario_total long_strike short_strike nd p
      = max 0 (p - long_strike) - max 0 (p - short_strike) - nd
    ∧ curve_profit long_strike short_strike nd p
      = max 0 (p - long_strike) - max 0 (p - short_strike) - nd
    ∧ (p ≤ long_strike → curve_profit long_strike short_strike nd p = -nd)
    ∧ (short_strike ≤ p →
        curve_profit long_strike short_strike nd p = (short_strike - long_strike) - nd) := by
  refine ⟨by unfold scenario_total; ring, rfl, ?_, ?_⟩
  · intro hp
    have h1 : max 0 (p - long_strike) = 0 := max_eq_left (by linarith)
    have h2 : max 0 (p - short_strike) = 0 := max_eq_left (by linarith)
    unfold curve_profit
    rw [h1, h2]; ring
  · intro hp
    have h1 : max 0 (p - long_strike) = p - long_strike := max_eq_right (by linarith)
    have h2 : max 0 (p - short_strike) = p - short_strike := max_eq_right (by linarith)
    unfold curve_profit
    rw [h1, h2]; ring

/-- Witness for C3 at the spec's own worked example (long strike 80,
short strike 130, net debit 20, spot 70). -/
theorem profit_piecewise_witness :
    (80 : ℚ) ≤ 130
    ∧ (scenario_total 80 130 20 70 = max 0 (70 - 80) - max 0 (70 - 130) - 20
      ∧ curve_profit 80 130 20 70 = max 0 (70 - 80) - max 0 (70 - 130) - 20
      ∧ ((70 : ℚ) ≤ 80 → curve_profit 80 130 20 70 = -20)
      ∧ ((130 : ℚ) ≤ 70 → curve_profit 80 130 20 70 = (130 - 80) - 20)) :=
  ⟨by norm_num, profit_piecewise 80 130 20 70 (by norm_num)⟩

/-- C7: for positive `S`, `K`, `T`, `sigma`, the call branch of
`calculate_greeks` returns exactly the spec's `Φ(d1)` for delta and the
annualized theta divided by 365, with `d1`, `d2` as in the spec. -/
theorem greeks_formulas (M : MathFns) (S K T r sigma : ℚ)
    (hS : 0 < S) (hK : 0 < K) (hT : 0 < T) (hsig : 0 < sigma) :
    calculate_greeks M S K T r sigma "call"
      = (some (delta_spec M S K T r sigma), some (theta_spec M S K T r sigma)) := by
  have hcond : ¬(T ≤ 0 ∨ sigma ≤ 0) := by push_neg; exact ⟨hT, hsig⟩
  simp only [calculate_greeks, if_neg hcond, if_pos rfl]
  unfold delta_spec theta_spec d2_spec d1_spec
  exact rfl

/-- Witness for C7 at `S = K = T = σ = 1`, `r = 0.045`, with every
library function instantiated as the identity. -/
theorem greeks_formulas_witness :
    (0 : ℚ) < 1 ∧ (0 : ℚ) < 1 ∧ (0 : ℚ) < 1 ∧ (0 : ℚ) < 1
    ∧ calculate_greeks ⟨id, id, id, id, id⟩ 1 1 1 0.045 1 "call"
      = (some (delta_spec ⟨id, id, id, id, id⟩ 1 1 1 0.045 1),
         some (theta_spec ⟨id, id, id, id, id⟩ 1 1 1 0.045 1)) :=
  ⟨by norm_num, by norm_num, by norm_num, by norm_num,
    greeks_formulas ⟨id, id, id, id, id⟩ 1 1 1 0.045 1
      (by norm_num) (by norm_num) (by norm_num) (by norm_num)⟩

/-- C8: whenever `T ≤ 0` or `sigma ≤ 0`, `calculate_greeks` returns the
undefined pair `(None, None)` for either option type, rather than a
numeric result. -/
theorem greeks_degenerate (M : MathFns) (S K T r sigma : ℚ)
    (option_type : String) (h : T ≤ 0 ∨ sigma ≤ 0) :
    calculate_greeks M S K T r sigma option_type = (none, none) := by
  simp only [calculate_greeks, if_pos h]

/-- Witness for C8 at `T = 0`. -/
theorem greeks_degenerate_witness :
    ((0 : ℚ) ≤ 0 ∨ (1 : ℚ) ≤ 0)
    ∧ calculate_greeks ⟨id, id, id, id, id⟩ 100 80 0 0.045 0.3 "call" = (none, none) :=
  ⟨Or.inl le_rfl,
    greeks_degenerate ⟨id, id, id, id, id⟩ 100 80 0 0.045 0.3 "call" (Or.inl le_rfl)⟩

/-- C9: on an empty strike sequence both default-strike selections, and
the underlying `min`-based selector itself, fail (Python raises
`ValueError`, the spec's `EmptyStrikeSet`, modelled here as `none`);
nothing catches or retries this. -/
theorem empty_strike_set_fails (price target : ℚ) :
    def_l [] price = none ∧ def_s [] price = none
    ∧ selectStrike [] target = none :=
  ⟨rfl, rfl, rfl⟩

/-- Helper: the shared structure of `get_price`/`get_bid` agrees with
the amended fallback rule, which returns `lastPrice` unvalidated. -/
theorem resolve_branch_eq (f lastP : Option FVal) :
    (if (getField f).isna || (getField f).le0 then getField lastP else getField f)
      = resolvePremiumAmended f lastP := by
  rcases f with _ | v
  · simp [getField, resolvePremiumAmended, FVal.isna, FVal.le0]
  · rcases v with _ | q
    · simp [getField, resolvePremiumAmended, FVal.isna]
    · simp only [getField, Option.getD_some, resolvePremiumAmended, FVal.isna, FVal.le0,
        Bool.false_or]
      rcases le_or_lt q 0 with hq | hq
      · rw [if_pos (by simpa using hq), if_neg (not_lt.mpr hq)]
      · rw [if_neg (by simpa using not_le.mpr hq), if_pos hq]

/-- C1 counterexample: on the row `{ask: 0, lastPrice: NaN}` the code
returns NaN, while the claim's resolution rule demands 0; the claimed
"return 0 when lastPrice is absent, NaN or ≤ 0" does not hold. -/
theorem premium_fallback_counterexample :
    get_price ⟨some (.val 0), none, some .nan⟩ = FVal.nan
    ∧ resolvePremiumClaimed (some (.val 0)) (some .nan) = FVal.val 0
    ∧ FVal.nan ≠ FVal.val 0 :=
  ⟨rfl, rfl, by simp⟩

/-- C1 amended: the resolver returns the primary field's value exactly
when it is present, non-NaN and > 0; otherwise it returns `lastPrice`
unchanged whenever that field is present — even when `lastPrice` is NaN
or ≤ 0 — and 0 only when `lastPrice` is absent from the row. -/
theorem premium_fallback_amended (row : QuoteRow) :
    get_price row = resolvePremiumAmended row.ask row.lastPrice
    ∧ get_bid row = resolvePremiumAmended row.bid row.lastPrice :=
  ⟨resolve_branch_eq row.ask row.lastPrice, resolve_branch_eq row.bid row.lastPrice⟩

/-- C5 counterexample: at 100 days to expiry the code emits a ⚠️
(Warn) comment, where the claim's tiering demands Fail. -/
theorem time_tier_counterexample :
    longDaysTier 100 = Tier.tWarn ∧ timeTierClaimed 100 = Tier.tFail
    ∧ Tier.tWarn ≠ Tier.tFail := by
  refine ⟨rfl, rfl, by simp⟩

/-- C5 amended: the long-leg time-to-expiry comment carries a ✅ (Pass)
icon whenever `days > 180` and a ⚠️ (Warn) icon whenever `days ≤ 180`;
no input produces a Fail-tier (❌) time comment, and the "over one
year" message requires `days > 365` strictly (365 days itself gets the
"over half a year" message). -/
theorem time_tier_amended (days_l : ℤ) :
    longDaysTier days_l = (if 180 < days_l then Tier.tPass else Tier.tWarn)
    ∧ longDaysTier days_l ≠ Tier.tFail
    ∧ (longDaysMsg days_l = LongDaysMsg.over365 ↔ 365 < days_l) := by
  refine ⟨?_, ?_, ?_⟩
  · unfold longDaysTier longDaysMsg
    by_cases h1 : (365 : ℤ) < days_l
    · rw [if_pos h1, if_pos (by omega : (180 : ℤ) < days_l)]; rfl
    · rw [if_neg h1]
      by_cases h2 : (180 : ℤ) < days_l
      · rw [if_pos h2, if_pos h2]; rfl
      · rw [if_neg h2, if_neg h2]; rfl
  · unfold longDaysTier
    cases h : longDaysMsg days_l <;> simp [longDaysIcon, tierOfIcon]
  · unfold longDaysMsg
    by_cases h1 : (365 : ℤ) < days_l
    · simp [h1]
    · rw [if_neg h1]
      split_ifs <;> simp [h1]

/-- C6 counterexample: at long delta 0.85, short delta 0.48 the score
is "S" although 0.48 is outside the ideal band 0.20–0.45 (the S-grade
test uses 0.50 as its upper bound, not the ideal band). -/
theorem score_band_counterexample :
    (generate_coach_comments 0.85 400 0.48 30).score = "S"
    ∧ ¬((0.20 : ℚ) ≤ 0.48 ∧ (0.48 : ℚ) ≤ 0.45) := by
  constructor
  · unfold generate_coach_comments
    rw [if_pos (by norm_num)]
  · norm_num

/-- C6 amended: the composite grade is "S" exactly when the long delta
is ≥ 0.80 and the short delta lies in the closed band 0.20–0.50 (wider
than the 0.20–0.45 band the ideal-OTM comment uses). -/
theorem score_S_iff (delta_l delta_s : ℚ) (days_l days_s : ℤ) :
    (generate_coach_comments delta_l days_l delta_s days_s).score = "S"
      ↔ (0.80 ≤ delta_l ∧ 0.20 ≤ delta_s ∧ delta_s ≤ 0.50) := by
  unfold generate_coach_comments
  split_ifs with h1 h2
  · simpa using h1
  · simp only [String.reduceEq, false_iff]; exact h1
  · simp only [String.reduceEq, false_iff]; exact h1

/-- C10: the returned composite score is always one of "S", "A", "C";
the initial value "B" is dead — the final classification always
overwrites it, so "B" is never returned. -/
theorem score_never_default (delta_l delta_s : ℚ) (days_l days_s : ℤ) :
    ((generate_coach_comments delta_l days_l delta_s days_s).score = "S"
      ∨ (generate_coach_comments delta_l days_l delta_s days_s).score = "A"
      ∨ (generate_coach_comments delta_l days_l delta_s days_s).score = "C")
    ∧ (generate_coach_comments delta_l days_l delta_s days_s).score ≠ initial_score := by
  unfold generate_coach_comments initial_score
  split_ifs <;> simp

/-- Helper: invariant of Python's `min(…, key=abs(x - t))` fold. With
the accumulator strictly below all remaining elements and the remainder
strictly ascending, the fold result is a minimiser of `|· - t|` among
the accumulator and the remainder, it equals the accumulator whenever
their keys tie, and on any key tie with an element it is `≤` that
element. -/
theorem foldl_minStep_spec (t : ℚ) (xs : List ℚ) : ∀ b : ℚ,
    (∀ y ∈ xs, b < y) → xs.Pairwise (· < ·) →
    (xs.foldl (minStep t) b = b ∨ xs.foldl (minStep t) b ∈ xs)
    ∧ |xs.foldl (minStep t) b - t| ≤ |b - t|
    ∧ (∀ y ∈ xs, |xs.foldl (minStep t) b - t| ≤ |y - t|)
    ∧ (|b - t| = |xs.foldl (minStep t) b - t| → xs.foldl (minStep t) b = b)
    ∧ (∀ y ∈ xs, |y - t| = |xs.foldl (minStep t) b - t| →
        xs.foldl (minStep t) b ≤ y) := by
  induction xs with
  | nil =>
    intro b _ _
    simp
  | cons a xs ih =>
    intro b hb hp
    have hba : b < a := hb a (List.mem_cons_self a xs)
    have hpc := List.pairwise_cons.mp hp
    have ha : ∀ y ∈ xs, a < y := hpc.1
    rw [List.foldl_cons]
    by_cases hc : |a - t| < |b - t|
    · -- the head replaces the accumulator
      rw [show minStep t b a = a from if_pos hc]
      obtain ⟨h1, h2, h3, h4, h5⟩ := ih a ha hpc.2
      refine ⟨?_, ?_, ?_, ?_, ?_⟩
      · rcases h1 with h | h
        · exact Or.inr (by rw [h]; exact List.mem_cons_self a xs)
        · exact Or.inr (List.mem_cons_of_mem a h)
      · exact le_trans h2 (le_of_lt hc)
      · intro y hy
        rcases List.mem_cons.mp hy with rfl | hy
        · exact h2
        · exact h3 y hy
      · intro htie
        exfalso
        exact absurd (lt_of_lt_of_le hc (htie ▸ h2)) (lt_irrefl _)
      · intro y hy htie
        rcases List.mem_cons.mp hy with rfl | hy
        · exact le_of_eq (h4 htie)
        · exact h5 y hy htie
    · -- the accumulator survives the head
      rw [show minStep t b a = b from if_neg hc]
      have hab : |b - t| ≤ |a - t| := not_lt.mp hc
      obtain ⟨h1, h2, h3, h4, h5⟩ := ih b (fun y hy => hb y (List.mem_cons_of_mem a hy)) hpc.2
      refine ⟨?_, h2, ?_, h4, ?_⟩
      · rcases h1 with h | h
        · exact Or.inl h
        · exact Or.inr (List.mem_cons_of_mem a h)
      · intro y hy
        rcases List.mem_cons.mp hy with rfl | hy
        · exact le_trans h2 hab
        · exact h3 y hy
      · intro y hy htie
        rcases List.mem_cons.mp hy with rfl | hy
        · have heq : |b - t| = |xs.foldl (minStep t) b - t| := by
            have hge : |b - t| ≤ |xs.foldl (minStep t) b - t| := htie ▸ hab
            exact le_antisymm hge h2
          rw [h4 heq]
          exact le_of_lt hba
        · exact h5 y hy htie

/-- C4: on a non-empty strictly ascending strike list and any target
price, the selector returns a member of the list minimising
`|strike - target|`, and on an exact key tie the lowest-valued tied
strike. -/
theorem selectStrike_nearest (strikes : List ℚ) (target : ℚ)
    (hne : strikes ≠ []) (hsorted : strikes.Pairwise (· < ·)) :
    ∃ m, selectStrike strikes target = some m ∧ m ∈ strikes
      ∧ (∀ y ∈ strikes, |m - target| ≤ |y - target|)
      ∧ (∀ y ∈ strikes, |y - target| = |m - target| → m ≤ y) := by
  match strikes, hne with
  | x :: xs, _ =>
    have hpc := List.pairwise_cons.mp hsorted
    obtain ⟨h1, h2, h3, h4, h5⟩ := foldl_minStep_spec target xs x hpc.1 hpc.2
    refine ⟨xs.foldl (minStep target) x, rfl, ?_, ?_, ?_⟩
    · rcases h1 with h | h
      · exact by rw [h]; exact List.mem_cons_self x xs
      · exact List.mem_cons_of_mem x h
    · intro y hy
      rcases List.mem_cons.mp hy with rfl | hy
      · exact h2
      · exact h3 y hy
    · intro y hy htie
      rcases List.mem_cons.mp hy with rfl | hy
      · exact le_of_eq (h4 htie)
      · exact h5 y hy htie

/-- Witness for C4: on the ascending list `[1, 3]` with target `2`,
both strikes tie at distance 1 and the lower strike `1` is selected. -/
theorem selectStrike_nearest_witness :
    ([1, 3] : List ℚ) ≠ []
    ∧ ([1, 3] : List ℚ).Pairwise (· < ·)
    ∧ ∃ m, selectStrike [1, 3] 2 = some m ∧ m ∈ ([1, 3] : List ℚ)
        ∧ (∀ y ∈ ([1, 3] : List ℚ), |m - 2| ≤ |y - 2|)
        ∧ (∀ y ∈ ([1, 3] : List ℚ), |y - 2| = |m - 2| → m ≤ y) :=
  ⟨by simp, by norm_num,
    selectStrike_nearest [1, 3] 2 (by simp) (by norm_num)⟩

end PMCC
